import Mathlib

/-
Verification of the listing reconciliation and synchronization engine of the
MiniTrainStore browser extension (sources: entrypoints/background.ts,
services/odoo.ts, and the content script).  TypeScript records are embedded
as Lean structures, JavaScript objects used as string-keyed maps are embedded
as association lists with first-match lookup, asynchronous remote calls are
embedded as environment records of `Except`-valued functions, and thrown
exceptions are `Except.error` values.
-/

namespace MTS

/-- Product state, from types/product (values ACTIVE, SOLD, REMOVED used
throughout background.ts and odoo.ts). -/
inductive ProductState where
  | ACTIVE
  | SOLD
  | REMOVED
deriving DecidableEq, BEq, Repr

instance : LawfulBEq ProductState where
  eq_of_beq := by
    intro a b h
    cases a <;> cases b <;> first | rfl | exact absurd h (by decide)
  rfl := by
    intro a
    cases a <;> decide

/-- ProductListing, as built by parseArticle in the content script:
id, title, price, url, datePosted, date, state, thumbnail (optional). -/
structure Listing where
  id : String
  title : String
  price : Int
  url : String
  datePosted : String
  date : String
  state : ProductState
  thumbnail : Option String
deriving DecidableEq, Repr

/-- ProductDetail: id, description, photos, scrapedAt. -/
structure Detail where
  id : String
  description : String
  photos : List String
  scrapedAt : String
deriving DecidableEq, Repr

/-- OdooExportStatus as written by exportSingleToOdoo / exportToOdoo:
exported, odooProductId, lastExportedAt, exportError. -/
structure ExportStatus where
  exported : Bool
  odooProductId : Option Nat
  lastExportedAt : Option String
  exportError : Option String
deriving DecidableEq, Repr

/-- ProfileData as stored under the single profiles key:
username, profileName (optional), listings, details, lastScraped and the
optional odooExports mapping. -/
structure ProfileData where
  username : String
  profileName : Option String
  listings : List (String × Listing)
  details : List (String × Detail)
  lastScraped : String
  odooExports : Option (List (String × ExportStatus))
deriving DecidableEq, Repr

/-- Product: a Listing joined with its optional detail fields
(combineListingsWithDetails in background.ts). -/
structure Product where
  id : String
  title : String
  price : Int
  url : String
  datePosted : String
  date : String
  state : ProductState
  thumbnail : Option String
  description : Option String
  photos : Option (List String)
deriving DecidableEq, Repr

/-! JavaScript objects used as string-keyed maps (`Record<string, T>`) are
embedded as association lists: `alookup` is property read, `aset` is property
write (replace the binding if the key is present, append otherwise). -/

def alookup {α : Type} (m : List (String × α)) (k : String) : Option α :=
  match m with
  | [] => none
  | p :: rest => if p.1 = k then some p.2 else alookup rest k

def aset {α : Type} (m : List (String × α)) (k : String) (v : α) :
    List (String × α) :=
  match m with
  | [] => [(k, v)]
  | p :: rest => if p.1 = k then (k, v) :: rest else p :: aset rest k v

theorem alookup_mem {α : Type} (m : List (String × α)) (k : String) (v : α)
    (h : alookup m k = some v) : (k, v) ∈ m := by
  induction m with
  | nil => cases h
  | cons p rest ih =>
    rw [alookup] at h
    by_cases hk : p.1 = k
    · rw [if_pos hk] at h
      obtain rfl : p.2 = v := Option.some.inj h
      subst hk
      exact List.mem_cons_self p rest
    · rw [if_neg hk] at h
      exact List.mem_cons_of_mem p (ih h)

theorem alookup_aset_self {α : Type} (m : List (String × α)) (k : String)
    (v : α) : alookup (aset m k v) k = some v := by
  induction m with
  | nil => simp [aset, alookup]
  | cons p rest ih =>
    obtain ⟨k1, v1⟩ := p
    by_cases h : k1 = k
    · simp [aset, alookup, h]
    · simp [aset, alookup, h, ih]

theorem alookup_aset_ne {α : Type} (m : List (String × α)) (k k2 : String)
    (v : α) (h : k2 ≠ k) : alookup (aset m k v) k2 = alookup m k2 := by
  induction m with
  | nil => simp [aset, alookup, Ne.symm h]
  | cons p rest ih =>
    obtain ⟨k1, v1⟩ := p
    by_cases h1 : k1 = k
    · subst h1
      simp [aset, alookup, Ne.symm h]
    · by_cases h2 : k1 = k2 <;> simp [aset, alookup, h1, h2, ih, h]

theorem alookup_aset_isSome {α : Type} (m : List (String × α)) (k k2 : String)
    (v : α) (h : (alookup m k2).isSome) :
    (alookup (aset m k v) k2).isSome := by
  by_cases hk : k2 = k
  · subst hk; simp [alookup_aset_self]
  · rwa [alookup_aset_ne m k k2 v hk]

/-! ### Listing Store Reconciler (background.ts) -/

/-- The change test of mergeListingsWithStats: the six monitored fields
title, price, state, datePosted, url, thumbnail compared with strict
inequality and joined by or. -/
def hasChanged (existingListing listing : Listing) : Bool :=
  existingListing.title != listing.title ||
  existingListing.price != listing.price ||
  existingListing.state != listing.state ||
  existingListing.datePosted != listing.datePosted ||
  existingListing.url != listing.url ||
  existingListing.thumbnail != listing.thumbnail

/-- The object spread performed on an update:
`\x7b ...existingListing, ...listing \x7d`.  Every own property of the
incoming listing overwrites the stored one; ProductListing has exactly the
eight properties below, all present on a scraped listing, so each field is
taken from the incoming record. -/
def mergeSpread (existingListing listing : Listing) : Listing :=
  { id := listing.id
    title := listing.title
    price := listing.price
    url := listing.url
    datePosted := listing.datePosted
    date := listing.date
    state := listing.state
    thumbnail := listing.thumbnail }

/-- Accumulator of the forEach loop in mergeListingsWithStats: the merged
map and the added / updated counters. -/
structure MergeResult where
  merged : List (String × Listing)
  added : Nat
  updated : Nat
deriving DecidableEq, Repr

/-- One iteration of the forEach loop of mergeListingsWithStats. -/
def mergeStep (acc : MergeResult) (listing : Listing) : MergeResult :=
  match alookup acc.merged listing.id with
  | some existingListing =>
    if hasChanged existingListing listing then
      { acc with
        merged := aset acc.merged listing.id (mergeSpread existingListing listing)
        updated := acc.updated + 1 }
    else acc
  | none =>
    { acc with
      merged := aset acc.merged listing.id listing
      added := acc.added + 1 }

/-- mergeListingsWithStats (background.ts): start from a copy of the
existing map and fold the incoming listings through the loop body. -/
def mergeListingsWithStats (existing : List (String × Listing))
    (newListings : List Listing) : MergeResult :=
  newListings.foldl mergeStep { merged := existing, added := 0, updated := 0 }

theorem hasChanged_self (l : Listing) : hasChanged l l = false := by
  simp [hasChanged]

theorem mergeSpread_eq (e l : Listing) : mergeSpread e l = l := rfl

theorem mergeStep_split (m : List (String × Listing)) (a u : Nat)
    (l : Listing) :
    mergeStep ⟨m, a, u⟩ l =
      ⟨(mergeStep ⟨m, 0, 0⟩ l).merged,
       a + (mergeStep ⟨m, 0, 0⟩ l).added,
       u + (mergeStep ⟨m, 0, 0⟩ l).updated⟩ := by
  unfold mergeStep
  cases alookup m l.id with
  | none => simp
  | some e => by_cases hc : hasChanged e l <;> simp [hc]

theorem foldl_mergeStep_shift (ls : List Listing)
    (m : List (String × Listing)) (a u : Nat) :
    List.foldl mergeStep ⟨m, a, u⟩ ls =
      ⟨(mergeListingsWithStats m ls).merged,
       a + (mergeListingsWithStats m ls).added,
       u + (mergeListingsWithStats m ls).updated⟩ := by
  induction ls generalizing m a u with
  | nil => simp [mergeListingsWithStats]
  | cons l ls ih =>
    have h1 : List.foldl mergeStep ⟨m, a, u⟩ (l :: ls) =
        List.foldl mergeStep (mergeStep ⟨m, a, u⟩ l) ls := rfl
    have h2 : mergeListingsWithStats m (l :: ls) =
        List.foldl mergeStep (mergeStep ⟨m, 0, 0⟩ l) ls := rfl
    rw [h1, h2, mergeStep_split m a u l, ih, ih]
    simp [Nat.add_assoc]

/-- The per-id description of the merge outcome used to state the claims: an
id hit by an incoming listing is inserted if absent, overwritten if a
monitored field changed, and kept as stored otherwise; any other id keeps
its previous binding. -/
def mergeSpec (existing : List (String × Listing)) (incoming : List Listing)
    (k : String) : Option Listing :=
  match incoming.find? (fun l => l.id == k) with
  | none => alookup existing k
  | some l =>
    match alookup existing k with
    | none => some l
    | some e => if hasChanged e l then some (mergeSpread e l) else some e

/-- The incoming listing has an id absent from the map. -/
def addedPred (existing : List (String × Listing)) (l : Listing) : Bool :=
  (alookup existing l.id).isNone

/-- The incoming listing has an id present in the map with a monitored-field
difference. -/
def updatedPred (existing : List (String × Listing)) (l : Listing) : Bool :=
  match alookup existing l.id with
  | some e => hasChanged e l
  | none => false

theorem countP_congr_mem {α : Type} (l : List α) (p q : α → Bool)
    (h : ∀ a ∈ l, p a = q a) : l.countP p = l.countP q := by
  induction l with
  | nil => rfl
  | cons x xs ih =>
    rw [List.countP_cons, List.countP_cons, h x (by simp),
      ih (fun a ha => h a (by simp [ha]))]

theorem find?_id_eq_self (incoming : List Listing) (l : Listing)
    (hmem : l ∈ incoming) (hnd : (incoming.map Listing.id).Nodup) :
    incoming.find? (fun x => x.id == l.id) = some l := by
  induction incoming with
  | nil => cases hmem
  | cons y ys ih =>
    rw [List.map_cons, List.nodup_cons] at hnd
    rcases List.mem_cons.mp hmem with h | h
    · subst h
      simp [List.find?_cons]
    · by_cases hy : y.id = l.id
      · exact absurd (hy ▸ List.mem_map_of_mem Listing.id h) hnd.1
      · rw [List.find?_cons_of_neg _ (by simp [hy])]
        exact ih h hnd.2

theorem mergeSpec_congr (m1 m2 : List (String × Listing))
    (ls : List Listing) (k : String) (h : alookup m1 k = alookup m2 k) :
    mergeSpec m1 ls k = mergeSpec m2 ls k := by
  unfold mergeSpec
  cases ls.find? (fun l => l.id == k) with
  | none => exact h
  | some l => rw [h]

theorem merge_char (existing : List (String × Listing))
    (incoming : List Listing) (hnd : (incoming.map Listing.id).Nodup) :
    (mergeListingsWithStats existing incoming).added =
      incoming.countP (addedPred existing) ∧
    (mergeListingsWithStats existing incoming).updated =
      incoming.countP (updatedPred existing) ∧
    ∀ k, alookup (mergeListingsWithStats existing incoming).merged k =
      mergeSpec existing incoming k := by
  induction incoming generalizing existing with
  | nil => exact ⟨rfl, rfl, fun k => rfl⟩
  | cons l ls ih =>
    rw [List.map_cons, List.nodup_cons] at hnd
    obtain ⟨hnotin, hnd2⟩ := hnd
    have hne : ∀ l2 ∈ ls, l2.id ≠ l.id := by
      intro l2 h2 he
      exact hnotin (he ▸ List.mem_map_of_mem Listing.id h2)
    have hfold : mergeListingsWithStats existing (l :: ls) =
        List.foldl mergeStep (mergeStep ⟨existing, 0, 0⟩ l) ls := rfl
    have hfind : ∀ k, l.id ≠ k →
        mergeSpec existing (l :: ls) k = mergeSpec existing ls k := by
      intro k hk
      unfold mergeSpec
      rw [List.find?_cons_of_neg _ (by simp [hk])]
    have hfl : ls.find? (fun x => x.id == l.id) = none := by
      rw [List.find?_eq_none]
      intro x hx
      simp [hne x hx]
    have hfc : (l :: ls).find? (fun x => x.id == l.id) = some l :=
      List.find?_cons_of_pos _ (by simp)
    -- the three shapes of the first step
    cases hA : alookup existing l.id with
    | none =>
      have hstep : mergeStep ⟨existing, 0, 0⟩ l =
          ⟨aset existing l.id l, 1, 0⟩ := by
        simp [mergeStep, hA]
      have hth := ih (aset existing l.id l) hnd2
      have hagree : ∀ l2 ∈ ls,
          alookup (aset existing l.id l) l2.id = alookup existing l2.id :=
        fun l2 h2 => alookup_aset_ne existing l.id l2.id l (hne l2 h2)
      rw [hfold, hstep, foldl_mergeStep_shift]
      refine ⟨?_, ?_, ?_⟩
      · rw [hth.1, List.countP_cons,
          countP_congr_mem ls (addedPred (aset existing l.id l))
            (addedPred existing) (fun l2 h2 => by
              simp [addedPred, hagree l2 h2])]
        simp [addedPred, hA, Nat.add_comm]
      · rw [hth.2.1, List.countP_cons,
          countP_congr_mem ls (updatedPred (aset existing l.id l))
            (updatedPred existing) (fun l2 h2 => by
              simp [updatedPred, hagree l2 h2])]
        simp [updatedPred, hA]
      · intro k
        rw [hth.2.2 k]
        by_cases hk : l.id = k
        · subst hk
          simp [mergeSpec, hfl, hfc, hA, alookup_aset_self]
        · rw [hfind k hk]
          exact mergeSpec_congr _ _ ls k
            (alookup_aset_ne existing l.id k l (fun h => hk h.symm))
    | some e =>
      by_cases hc : hasChanged e l
      · have hstep : mergeStep ⟨existing, 0, 0⟩ l =
            ⟨aset existing l.id (mergeSpread e l), 0, 1⟩ := by
          simp [mergeStep, hA, hc]
        have hth := ih (aset existing l.id (mergeSpread e l)) hnd2
        have hagree : ∀ l2 ∈ ls,
            alookup (aset existing l.id (mergeSpread e l)) l2.id =
              alookup existing l2.id :=
          fun l2 h2 =>
            alookup_aset_ne existing l.id l2.id (mergeSpread e l) (hne l2 h2)
        rw [hfold, hstep, foldl_mergeStep_shift]
        refine ⟨?_, ?_, ?_⟩
        · rw [hth.1, List.countP_cons,
            countP_congr_mem ls
              (addedPred (aset existing l.id (mergeSpread e l)))
              (addedPred existing) (fun l2 h2 => by
                simp [addedPred, hagree l2 h2])]
          simp [addedPred, hA]
        · rw [hth.2.1, List.countP_cons,
            countP_congr_mem ls
              (updatedPred (aset existing l.id (mergeSpread e l)))
              (updatedPred existing) (fun l2 h2 => by
                simp [updatedPred, hagree l2 h2])]
          simp [updatedPred, hA, hc, Nat.add_comm]
        · intro k
          rw [hth.2.2 k]
          by_cases hk : l.id = k
          · subst hk
            simp [mergeSpec, hfl, hfc, hA, alookup_aset_self, hc]
          · rw [hfind k hk]
            exact mergeSpec_congr _ _ ls k
              (alookup_aset_ne existing l.id k (mergeSpread e l)
                (fun h => hk h.symm))
      · have hstep : mergeStep ⟨existing, 0, 0⟩ l = ⟨existing, 0, 0⟩ := by
          simp [mergeStep, hA, hc]
        have hth := ih existing hnd2
        rw [hfold, hstep, foldl_mergeStep_shift]
        refine ⟨?_, ?_, ?_⟩
        · rw [hth.1, List.countP_cons]
          simp [addedPred, hA]
        · rw [hth.2.1, List.countP_cons]
          simp [updatedPred, hA, hc]
        · intro k
          rw [hth.2.2 k]
          by_cases hk : l.id = k
          · subst hk
            simp [mergeSpec, hfl, hfc, hA, hc]
          · rw [hfind k hk]

/-- The listings-map transformation performed by markMissingAsRemoved
(background.ts): every entry whose key is not in currentIds and whose state
is not already REMOVED is replaced by a copy with state REMOVED. -/
def markMissingAsRemoved (listings : List (String × Listing))
    (currentIds : List String) : List (String × Listing) :=
  listings.map fun p =>
    if ¬ currentIds.contains p.1 ∧ p.2.state ≠ ProductState.REMOVED then
      (p.1, { p.2 with state := ProductState.REMOVED })
    else p

theorem alookup_map_keyfix {α : Type} (m : List (String × α))
    (f : String × α → String × α) (hf : ∀ p, (f p).1 = p.1) (k : String) :
    alookup (m.map f) k = (alookup m k).map (fun v => (f (k, v)).2) := by
  induction m with
  | nil => rfl
  | cons p rest ih =>
    rw [List.map_cons, alookup, alookup, hf p]
    by_cases hk : p.1 = k
    · rw [if_pos hk, if_pos hk]
      subst hk
      rfl
    · rw [if_neg hk, if_neg hk, ih]

/-- A listing with given id and price, and fixed defaults elsewhere, used as
concrete test data. -/
def sampleListing (i : String) (p : Int) : Listing :=
  { id := i, title := "t", price := p, url := "u", datePosted := "d",
    date := "dt", state := ProductState.ACTIVE, thumbnail := none }

/-- Claim C3: markMissingAsRemoved transitions every stored Listing whose id
is not in currentIds and whose state is not already REMOVED to REMOVED,
leaving every other field of that Listing unchanged; a Listing already
REMOVED and a Listing whose id is in currentIds are returned untouched.
The hypothesis states the store invariant that each listing is keyed by its
own id (the code always stores a listing under its id). -/
theorem markMissingAsRemoved_spec (listings : List (String × Listing))
    (currentIds : List String) (hids : ∀ p ∈ listings, p.2.id = p.1) :
    ∀ k l, alookup listings k = some l →
      alookup (markMissingAsRemoved listings currentIds) k =
        some (if l.id ∈ currentIds then l
              else if l.state = ProductState.REMOVED then l
              else { l with state := ProductState.REMOVED }) := by
  intro k l h
  have hid : l.id = k := hids (k, l) (alookup_mem listings k l h)
  have hf : ∀ p : String × Listing,
      ((if ¬ currentIds.contains p.1 ∧ p.2.state ≠ ProductState.REMOVED then
          (p.1, { p.2 with state := ProductState.REMOVED })
        else p)).1 = p.1 := by
    intro p
    split <;> rfl
  rw [markMissingAsRemoved, alookup_map_keyfix listings _ hf k, h]
  subst hid
  by_cases hmem : l.id ∈ currentIds
  · simp [hmem]
  · by_cases hst : l.state = ProductState.REMOVED
    · simp [hmem, hst]
    · simp [hmem, hst]

/-- Witness for C3 at a concrete store: listing b is absent from currentIds
and ACTIVE, so it transitions to REMOVED. -/
theorem markMissingAsRemoved_spec_witness :
    (∀ p ∈ [("a", sampleListing "a" 1), ("b", sampleListing "b" 5)],
      p.2.id = p.1) ∧
    alookup (markMissingAsRemoved
        [("a", sampleListing "a" 1), ("b", sampleListing "b" 5)] ["a"]) "b" =
      some (if (sampleListing "b" 5).id ∈ ["a"] then sampleListing "b" 5
            else if (sampleListing "b" 5).state = ProductState.REMOVED then
              sampleListing "b" 5
            else { sampleListing "b" 5 with state := ProductState.REMOVED }) :=
  ⟨by decide,
   markMissingAsRemoved_spec
     [("a", sampleListing "a" 1), ("b", sampleListing "b" 5)] ["a"]
     (by decide) "b" (sampleListing "b" 5) (by decide)⟩

/-- Claim C1, counterexample to the statement as written: it quantifies over
every incoming sequence, but when the same absent id occurs twice in the
incoming batch, only the first occurrence is counted in addedCount (the
second is treated as present), so addedCount is not the number of incoming
listings whose id is absent from the existing mapping. -/
theorem merge_added_count_duplicate_cex :
    ¬ ((mergeListingsWithStats []
          [sampleListing "x" 10, sampleListing "x" 10]).added =
        List.countP (addedPred [])
          [sampleListing "x" 10, sampleListing "x" 10]) := by
  decide

/-- Claim C1 (amended: the incoming listings carry pairwise-distinct ids, as
a scrape batch does): addedCount counts exactly the incoming listings with
an absent id and updatedCount exactly those present with a monitored-field
change; an absent-id listing is inserted as is; a present-id listing
replaces the stored one by the spread merge when a monitored field differs
and is left as stored otherwise; ids not occurring in the batch keep their
previous binding, and no key is ever removed. -/
theorem mergeListingsWithStats_spec (existing : List (String × Listing))
    (incoming : List Listing) (hnd : (incoming.map Listing.id).Nodup) :
    (mergeListingsWithStats existing incoming).added =
      incoming.countP (addedPred existing) ∧
    (mergeListingsWithStats existing incoming).updated =
      incoming.countP (updatedPred existing) ∧
    (∀ l ∈ incoming, alookup existing l.id = none →
      alookup (mergeListingsWithStats existing incoming).merged l.id =
        some l) ∧
    (∀ l ∈ incoming, ∀ e, alookup existing l.id = some e →
      (hasChanged e l = true →
        alookup (mergeListingsWithStats existing incoming).merged l.id =
          some (mergeSpread e l)) ∧
      (hasChanged e l = false →
        alookup (mergeListingsWithStats existing incoming).merged l.id =
          some e)) ∧
    (∀ k, (∀ l ∈ incoming, l.id ≠ k) →
      alookup (mergeListingsWithStats existing incoming).merged k =
        alookup existing k) ∧
    (∀ k, (alookup existing k).isSome →
      (alookup (mergeListingsWithStats existing incoming).merged k).isSome) := by
  obtain ⟨h1, h2, h3⟩ := merge_char existing incoming hnd
  refine ⟨h1, h2, ?_, ?_, ?_, ?_⟩
  · intro l hl hnone
    rw [h3 l.id]
    simp [mergeSpec, find?_id_eq_self incoming l hl hnd, hnone]
  · intro l hl e he
    constructor
    · intro hc
      rw [h3 l.id]
      simp [mergeSpec, find?_id_eq_self incoming l hl hnd, he, hc]
    · intro hc
      rw [h3 l.id]
      simp [mergeSpec, find?_id_eq_self incoming l hl hnd, he, hc]
  · intro k hk
    have hfn : incoming.find? (fun x => x.id == k) = none := by
      rw [List.find?_eq_none]
      intro x hx
      simp [hk x hx]
    rw [h3 k]
    simp [mergeSpec, hfn]
  · intro k hs
    rw [h3 k]
    unfold mergeSpec
    cases hf : incoming.find? (fun x => x.id == k) with
    | none => exact hs
    | some l =>
      cases hl2 : alookup existing k with
      | none => simp
      | some e =>
        by_cases hc : hasChanged e l <;> simp [hc]

/-- Witness for C1 at a concrete input: one update of a present id and one
insertion of an absent id. -/
theorem mergeListingsWithStats_spec_witness :
    (([sampleListing "a" 7, sampleListing "b" 3].map Listing.id).Nodup) ∧
    (mergeListingsWithStats [("a", sampleListing "a" 5)]
        [sampleListing "a" 7, sampleListing "b" 3]).added =
      List.countP (addedPred [("a", sampleListing "a" 5)])
        [sampleListing "a" 7, sampleListing "b" 3] :=
  ⟨by decide,
   (mergeListingsWithStats_spec [("a", sampleListing "a" 5)]
     [sampleListing "a" 7, sampleListing "b" 3] (by decide)).1⟩

theorem foldl_mergeStep_fixed (inc : List Listing)
    (m : List (String × Listing)) (a u : Nat)
    (h : ∀ l ∈ inc, ∃ v, alookup m l.id = some v ∧ hasChanged v l = false) :
    List.foldl mergeStep ⟨m, a, u⟩ inc = ⟨m, a, u⟩ := by
  induction inc generalizing a u with
  | nil => rfl
  | cons l ls ih =>
    obtain ⟨v, hv, hc⟩ := h l (by simp)
    have hstep : mergeStep ⟨m, a, u⟩ l = ⟨m, a, u⟩ := by
      simp [mergeStep, hv, hc]
    rw [List.foldl_cons, hstep, ih a u (fun l2 h2 => h l2 (by simp [h2]))]

/-- Claim C7, counterexample to the statement as written: with an incoming
batch that repeats one id with two different prices, re-running the merge
against its own output still reports updates (each occurrence flips the
stored listing), so the re-run does not yield zero updates. -/
theorem merge_idempotent_duplicate_cex :
    (mergeListingsWithStats
        (mergeListingsWithStats []
          [sampleListing "x" 10, sampleListing "x" 20]).merged
        [sampleListing "x" 10, sampleListing "x" 20]).updated ≠ 0 := by
  decide

/-- Claim C7 (amended: the incoming listings carry pairwise-distinct ids):
re-running mergeListingsWithStats with the same incoming batch against its
own prior output yields zero additions, zero updates, and the identical
mapping. -/
theorem merge_idempotent (existing : List (String × Listing))
    (incoming : List Listing) (hnd : (incoming.map Listing.id).Nodup) :
    mergeListingsWithStats
        (mergeListingsWithStats existing incoming).merged incoming =
      ⟨(mergeListingsWithStats existing incoming).merged, 0, 0⟩ := by
  have h3 := (merge_char existing incoming hnd).2.2
  have hfix : ∀ l ∈ incoming, ∃ v,
      alookup (mergeListingsWithStats existing incoming).merged l.id =
        some v ∧ hasChanged v l = false := by
    intro l hl
    have hf := find?_id_eq_self incoming l hl hnd
    cases hA : alookup existing l.id with
    | none =>
      refine ⟨l, ?_, hasChanged_self l⟩
      rw [h3 l.id]
      simp [mergeSpec, hf, hA]
    | some e =>
      by_cases hc : hasChanged e l
      · refine ⟨l, ?_, hasChanged_self l⟩
        rw [h3 l.id]
        simp [mergeSpec, hf, hA, hc, mergeSpread_eq]
      · refine ⟨e, ?_, by rwa [Bool.not_eq_true] at hc⟩
        rw [h3 l.id]
        simp [mergeSpec, hf, hA, hc]
  exact foldl_mergeStep_fixed incoming _ 0 0 hfix

/-- Witness for C7 at a concrete input. -/
theorem merge_idempotent_witness :
    (([sampleListing "a" 7, sampleListing "b" 3].map Listing.id).Nodup) ∧
    mergeListingsWithStats
        (mergeListingsWithStats [("a", sampleListing "a" 5)]
          [sampleListing "a" 7, sampleListing "b" 3]).merged
        [sampleListing "a" 7, sampleListing "b" 3] =
      ⟨(mergeListingsWithStats [("a", sampleListing "a" 5)]
          [sampleListing "a" 7, sampleListing "b" 3]).merged, 0, 0⟩ :=
  ⟨by decide,
   merge_idempotent [("a", sampleListing "a" 5)]
     [sampleListing "a" 7, sampleListing "b" 3] (by decide)⟩

/-! ### Reference Data Resolver: keyword classification (odoo.ts) -/

/-- TAGS_MAP (odoo.ts), in object-literal insertion order, which is the
iteration order of Object.entries for these non-numeric keys.  Note the tag
named H0 (with a digit zero) is configured with the keyword "ho" (with a
letter o). -/
def TAGS_MAP : List (String × List String) :=
  [("Jouef", ["jouef"]),
   ("Lima", ["lima"]),
   ("Hornby", ["hornby"]),
   ("Roco", ["roco"]),
   ("Piko", ["piko"]),
   ("Märklin", ["marklin", "märklin"]),
   ("Fleischmann", ["fleischmann"]),
   ("H0", ["ho"]),
   ("SNCF", ["sncf"])]

/-- CATEGORY_MAP (odoo.ts), in object-literal insertion order. -/
def CATEGORY_MAP : List (String × List String) :=
  [("Wagons",
    ["wagon", "wagons", "voiture", "voitures", "fourgon", "allège",
     "remorque"]),
   ("Locomotives",
    ["locomotive", "locomotives", "locotracteur", "locotender", "autorail"]),
   ("Rails",
    ["trails", "rail", "aiguillage", "voie", "rails", "aiguillages", "voies",
     "croisement", "jonction", "tjd", "heurtoir", "heurtoirs"]),
   ("Décor", ["personnages", "personnage", "tunnel", "conteneurs", "bureau"]),
   ("Coffrets", ["coffret", "coffrets"])]

def listStartsWith (needle hay : List Char) : Bool :=
  match needle, hay with
  | [], _ => true
  | _ :: _, [] => false
  | a :: ns, b :: hs => a == b && listStartsWith ns hs

def listInfix (needle hay : List Char) : Bool :=
  match hay with
  | [] => needle.isEmpty
  | b :: rest => listStartsWith needle (b :: rest) || listInfix needle rest

/-- JavaScript word.includes(keyword): keyword occurs as a contiguous
substring of word. -/
def includesStr (word keyword : String) : Bool :=
  listInfix keyword.data word.data

def splitWsAux (cur : List Char) (s : List Char) : List String :=
  match s with
  | [] => [String.mk cur.reverse]
  | c :: rest =>
    if c.isWhitespace then String.mk cur.reverse :: splitWsAux [] rest
    else splitWsAux (c :: cur) rest

/-- JavaScript title.toLowerCase().split on whitespace.  Char.toLower
lowers the ASCII range exactly as toLowerCase does for the characters the
keyword maps contain; splitting at each whitespace character can yield
empty tokens where the regex collapses runs, but an empty token contains no
nonempty keyword, so classification is unaffected. -/
def titleWordsOf (title : String) : List String :=
  splitWsAux [] (title.data.map Char.toLower)

/-- getTags (odoo.ts) expressed on the title string: push every entry of
TAGS_MAP one of whose keywords is a substring of some title word. -/
def tagsOfTitle (title : String) : List String :=
  let titleWords := titleWordsOf title
  TAGS_MAP.foldl
    (fun tags bk =>
      if bk.2.any (fun keyword =>
          titleWords.any (fun word => includesStr word keyword)) then
        tags ++ [bk.1]
      else tags)
    []

/-- getCategory (odoo.ts) expressed on the title string: return the first
entry of CATEGORY_MAP one of whose keywords is a substring of some title
word, none if no entry matches. -/
def categoryOfTitle (title : String) : Option String :=
  (CATEGORY_MAP.find? (fun ck =>
    ck.2.any (fun keyword =>
      (titleWordsOf title).any (fun word => includesStr word keyword)))).map
    (fun ck => ck.1)

/-- getTags (odoo.ts): reads only product.title. -/
def getTags (product : Product) : List String :=
  tagsOfTitle product.title

/-- getCategory (odoo.ts): reads only product.title. -/
def getCategory (product : Product) : Option String :=
  categoryOfTitle product.title

/-- A product with the given title and fixed defaults elsewhere, used as
concrete test data. -/
def productOfTitle (t : String) : Product :=
  { id := "1", title := t, price := 0, url := "u", datePosted := "d",
    date := "dt", state := ProductState.ACTIVE, thumbnail := none,
    description := none, photos := none }

/-- Claim C5, counterexample to the statement as written: the claim expects
the tag H0 in the result for the title with the token h0 (digit zero), but
the configured keyword for that tag is the two-letter string "ho", which is
not a substring of "h0", so getTags does not return H0. -/
theorem getTags_H0_cex :
    ¬ ("H0" ∈ getTags (productOfTitle "Wagon Jouef H0 SNCF")) := by
  decide

/-- Claim C5 (amended: on the title "Wagon Jouef H0 SNCF" the tags are
exactly Jouef and SNCF — the H0 tag does not match because its keyword is
the letter string "ho" while the title token is "h0" with a digit zero —
and the category of "Wagon Jouef H0" is Wagons). -/
theorem getTags_getCategory_values :
    getTags (productOfTitle "Wagon Jouef H0 SNCF") = ["Jouef", "SNCF"] ∧
    getCategory (productOfTitle "Wagon Jouef H0") = some "Wagons" := by
  decide

/-! ### Title cleanup performed by the export handlers (background.ts) -/

def charEqCI (a b : Char) : Bool :=
  a.toLower == b.toLower

def startsWithCI (phrase hay : List Char) : Bool :=
  match phrase, hay with
  | [], _ => true
  | _ :: _, [] => false
  | a :: ps, b :: hs => charEqCI a b && startsWithCI ps hs

/-- One left-to-right pass of title.replace(slash Train wagon slash gi, ""):
at each position, if the phrase matches case-insensitively, drop it and
resume after the match (global, non-overlapping), otherwise keep the
character.  The fuel argument starts at the length of the string and
decreases by one per step while at least one character is consumed per
step, so the fuel never runs out before the string does. -/
def stripAllCIFuel (phrase : List Char) : Nat → List Char → List Char
  | 0, s => s
  | _ + 1, [] => []
  | fuel + 1, c :: rest =>
    if startsWithCI phrase (c :: rest) then
      stripAllCIFuel phrase fuel (rest.drop (phrase.length - 1))
    else c :: stripAllCIFuel phrase fuel rest

def stripAllCI (phrase s : List Char) : List Char :=
  stripAllCIFuel phrase s.length s

/-- JavaScript String.prototype.trim: drop whitespace from both ends. -/
def jsTrim (s : String) : String :=
  String.mk
    (((s.data.dropWhile Char.isWhitespace).reverse.dropWhile
      Char.isWhitespace).reverse)

/-- The title cleanup in exportSingleToOdoo and exportToOdoo
(background.ts): title.replace(slash Train wagon slash gi, "").trim(). -/
def cleanTitle (title : String) : String :=
  jsTrim (String.mk (stripAllCI "Train wagon".data title.data))

/-- The cleanedProduct construction of exportSingleToOdoo (and the per-item
map of exportToOdoo): the product with the cleaned title. -/
def cleanProduct (p : Product) : Product :=
  { p with title := cleanTitle p.title }

/-! ### Catalog Record Mapper (odoo.ts) -/

/-- stringToHtml (odoo.ts): s.replace(newline, "<br/>") globally. -/
def stringToHtmlChars (s : List Char) : List Char :=
  match s with
  | [] => []
  | c :: rest =>
    if c = '\n' then "<br/>".data ++ stringToHtmlChars rest
    else c :: stringToHtmlChars rest

def stringToHtml (s : String) : String :=
  String.mk (stringToHtmlChars s.data)

/-- The remote payload of productToOdooDict.  The Odoo many2many triples
[[6, 0, ids]] are represented by their id lists; optional keys of the
dynamic dictionary are Option fields.  qty_available is the fixed 1.0. -/
structure OdooProductData where
  name : String
  list_price : Int
  website_published : Bool
  qty_available : Nat
  description_ecommerce : String
  product_tag_ids : List Nat
  taxes_id : List Nat
  create_date : String
  publish_date : String
  write_date : String
  image_1920 : Option String
  product_template_image_ids : Option (List Nat)
  categ_id : Option Nat
  public_categ_ids : Option (List Nat)
deriving DecidableEq, Repr

/-- The effectful collaborators of productToOdooDict, one field per awaited
method, each returning the outcome of that call: Except.error is a thrown
exception.  formatDate stands for the Date normalization
new Date(d).toISOString().replace("T", " ").split(".")[0]. -/
structure MapperEnv where
  getTagId : String → Except String Nat
  getCategoryId : String → Except String Nat
  getPublicCategoryId : String → Except String (Option Nat)
  getTaxId : Except String Nat
  downloadImage : String → Except String String
  formatDate : String → String

/-- loadImages (odoo.ts): no photos yields no image; otherwise the first
photo is downloaded as base64 and a download failure is swallowed (null
image).  imageIds is always empty in the source. -/
def loadImages (env : MapperEnv) (product : Product) :
    Option String × List Nat :=
  match product.photos with
  | none => (none, [])
  | some [] => (none, [])
  | some (first :: _) =>
    match env.downloadImage first with
    | .error _ => (none, [])
    | .ok b64 => (some b64, [])

/-- The productData dictionary of productToOdooDict before the category
block runs: name, price, publication flag, quantity, description markup
with the fixed trailer, tag and tax id lists, the three timestamp fields
from the normalized date, and the optional image keys. -/
def basePayload (env : MapperEnv) (product : Product) (tagsIds : List Nat)
    (taxId : Nat) : OdooProductData :=
  { name := product.title
    list_price := product.price
    website_published := true
    qty_available := 1
    description_ecommerce :=
      stringToHtml
          (match product.description with
           | some d => d
           | none => "") ++
        "<br/>Disponible également sur <a href=\x27" ++ product.url ++
        "\x27>leboncoin.fr</a>"
    product_tag_ids := tagsIds
    taxes_id := [taxId]
    create_date := env.formatDate product.date
    publish_date := env.formatDate product.date
    write_date := env.formatDate product.date
    image_1920 :=
      match (loadImages env product).1 with
      | some s => if s = "" then none else some s
      | none => none
    product_template_image_ids :=
      if (loadImages env product).2.length > 0 then
        some (loadImages env product).2
      else none
    categ_id := none
    public_categ_ids := none }

/-- productToOdooDict (odoo.ts).  Tag resolution failures and the tax
lookup failure propagate (Promise.all rejects, await throws); a category
resolution failure inside the try block is caught and the payload is
returned without categ_id; a public-category miss (ok none) leaves
public_categ_ids unset. -/
def productToOdooDict (env : MapperEnv) (product : Product) :
    Except String OdooProductData :=
  match (getTags product).mapM env.getTagId with
  | .error e => .error e
  | .ok tagsIds =>
    match env.getTaxId with
    | .error e => .error e
    | .ok taxId =>
      match getCategory product with
      | none => .ok (basePayload env product tagsIds taxId)
      | some cat =>
        match env.getCategoryId cat with
        | .error _ => .ok (basePayload env product tagsIds taxId)
        | .ok cid =>
          match env.getPublicCategoryId cat with
          | .error _ =>
            .ok { basePayload env product tagsIds taxId with
                    categ_id := some cid }
          | .ok none =>
            .ok { basePayload env product tagsIds taxId with
                    categ_id := some cid }
          | .ok (some pid) =>
            .ok { basePayload env product tagsIds taxId with
                    categ_id := some cid
                    public_categ_ids := some [pid] }

theorem productToOdooDict_name (env : MapperEnv) (q : Product)
    (d : OdooProductData) (h : productToOdooDict env q = .ok d) :
    d.name = q.title := by
  unfold productToOdooDict at h
  repeat' split at h
  all_goals cases h
  all_goals rfl

/-- Claim C6: the export handlers strip the marketing phrase "Train wagon"
case-insensitively from the title and trim whitespace before anything else
runs, so "Train Wagon SNCF bleu" becomes "SNCF bleu"; the payload name of
the cleaned product is the cleaned title; and tag and category
classification of the cleaned product read the cleaned title, not the
original one. -/
theorem cleanTitle_spec :
    cleanTitle "Train Wagon SNCF bleu" = "SNCF bleu" ∧
    (∀ (env : MapperEnv) (p : Product) (d : OdooProductData),
      productToOdooDict env (cleanProduct p) = .ok d →
      d.name = cleanTitle p.title) ∧
    (∀ p : Product,
      getTags (cleanProduct p) = tagsOfTitle (cleanTitle p.title) ∧
      getCategory (cleanProduct p) = categoryOfTitle (cleanTitle p.title)) := by
  refine ⟨by decide, ?_, fun p => ⟨rfl, rfl⟩⟩
  intro env p d h
  exact productToOdooDict_name env (cleanProduct p) d h

/-- Mapper collaborators for the C6 witness: every lookup resolves, no
image download. -/
def envW : MapperEnv :=
  { getTagId := fun _ => .ok 11
    getCategoryId := fun _ => .ok 21
    getPublicCategoryId := fun _ => .ok (some 31)
    getTaxId := .ok 41
    downloadImage := fun _ => .error "offline"
    formatDate := fun d => d }

def productW : Product :=
  { id := "9", title := "Train Wagon SNCF bleu", price := 12, url := "u",
    datePosted := "d", date := "dt", state := ProductState.ACTIVE,
    thumbnail := none, description := none, photos := none }

def payloadW : OdooProductData :=
  { name := "SNCF bleu", list_price := 12, website_published := true,
    qty_available := 1,
    description_ecommerce :=
      "<br/>Disponible également sur <a href=\x27u\x27>leboncoin.fr</a>",
    product_tag_ids := [11], taxes_id := [41], create_date := "dt",
    publish_date := "dt", write_date := "dt", image_1920 := none,
    product_template_image_ids := none, categ_id := none,
    public_categ_ids := none }

/-- Witness for C6: the cleaned product maps to a payload whose name is the
cleaned title "SNCF bleu". -/
theorem cleanTitle_spec_witness :
    productToOdooDict envW (cleanProduct productW) = .ok payloadW ∧
    payloadW.name = cleanTitle productW.title :=
  ⟨rfl, cleanTitle_spec.2.1 envW productW payloadW rfl⟩

/-! ### Reference Data Resolver: cached id lookup (odoo.ts) -/

/-- The remote search collaborators of the four id resolvers: each returns
the list of matching record ids for an exact-name domain query; an
Except.error is a transport or parse failure raised by raiseForStatus or
parseJsonResponse. -/
structure RemoteEnv where
  tagSearch : String → Except String (List Nat)
  categorySearch : String → Except String (List Nat)
  publicCategorySearch : String → Except String (List Nat)
  taxSearch : String → Except String (List Nat)

/-- getTagId (odoo.ts) with TAGS_ID_CACHE passed explicitly: outcome, cache
after the call, and the number of remote lookups issued (0 on a cache hit).
On a miss the first matching record id is cached and returned; an empty
result throws and caches nothing. -/
def getTagId (env : RemoteEnv) (cache : List (String × Nat))
    (tagName : String) : Except String Nat × List (String × Nat) × Nat :=
  match alookup cache tagName with
  | some cached => (.ok cached, cache, 0)
  | none =>
    match env.tagSearch tagName with
    | .error e => (.error e, cache, 1)
    | .ok [] =>
      (.error ("Tag \x27" ++ tagName ++ "\x27 not found in Odoo."), cache, 1)
    | .ok (recId :: _) => (.ok recId, aset cache tagName recId, 1)

/-- getCategoryId (odoo.ts) with CATEGORY_ID_CACHE passed explicitly. -/
def getCategoryId (env : RemoteEnv) (cache : List (String × Nat))
    (categoryName : String) : Except String Nat × List (String × Nat) × Nat :=
  match alookup cache categoryName with
  | some cached => (.ok cached, cache, 0)
  | none =>
    match env.categorySearch categoryName with
    | .error e => (.error e, cache, 1)
    | .ok [] =>
      (.error ("Category \x27" ++ categoryName ++ "\x27 not found in Odoo."),
       cache, 1)
    | .ok (recId :: _) => (.ok recId, aset cache categoryName recId, 1)

/-- getPublicCategoryId (odoo.ts) with PUBLIC_CATEGORY_ID_CACHE passed
explicitly: unlike the other three resolvers, an empty result is not an
error but a warned ok-none. -/
def getPublicCategoryId (env : RemoteEnv) (cache : List (String × Nat))
    (categoryName : String) :
    Except String (Option Nat) × List (String × Nat) × Nat :=
  match alookup cache categoryName with
  | some cached => (.ok (some cached), cache, 0)
  | none =>
    match env.publicCategorySearch categoryName with
    | .error e => (.error e, cache, 1)
    | .ok [] => (.ok none, cache, 1)
    | .ok (recId :: _) => (.ok (some recId), aset cache categoryName recId, 1)

/-- getTaxId (odoo.ts) with TAX_ID_CACHE passed explicitly; the tax name is
the fixed string 0% EXEMPT G. -/
def getTaxId (env : RemoteEnv) (cache : List (String × Nat)) :
    Except String Nat × List (String × Nat) × Nat :=
  match alookup cache "0% EXEMPT G" with
  | some cached => (.ok cached, cache, 0)
  | none =>
    match env.taxSearch "0% EXEMPT G" with
    | .error e => (.error e, cache, 1)
    | .ok [] =>
      (.error "Tax \x270% EXEMPT G\x27 not found in Odoo.", cache, 1)
    | .ok (recId :: _) => (.ok recId, aset cache "0% EXEMPT G" recId, 1)

/-- Claim C9: each of the four resolvers, called twice with the same name
within one process, issues exactly one remote lookup: on a cache miss the
first call performs the remote exact-name lookup, caches the first matching
record id, and returns it (one lookup); the second call, on the cache left
by the first, returns the cached id without any remote call (zero
lookups). -/
theorem resolveId_cache_spec (env : RemoteEnv) (cache : List (String × Nat))
    (name1 : String) (recId : Nat) (rest : List Nat) :
    (alookup cache name1 = none → env.tagSearch name1 = .ok (recId :: rest) →
      getTagId env cache name1 = (.ok recId, aset cache name1 recId, 1) ∧
      getTagId env (aset cache name1 recId) name1 =
        (.ok recId, aset cache name1 recId, 0)) ∧
    (alookup cache name1 = none →
      env.categorySearch name1 = .ok (recId :: rest) →
      getCategoryId env cache name1 =
        (.ok recId, aset cache name1 recId, 1) ∧
      getCategoryId env (aset cache name1 recId) name1 =
        (.ok recId, aset cache name1 recId, 0)) ∧
    (alookup cache name1 = none →
      env.publicCategorySearch name1 = .ok (recId :: rest) →
      getPublicCategoryId env cache name1 =
        (.ok (some recId), aset cache name1 recId, 1) ∧
      getPublicCategoryId env (aset cache name1 recId) name1 =
        (.ok (some recId), aset cache name1 recId, 0)) ∧
    (alookup cache "0% EXEMPT G" = none →
      env.taxSearch "0% EXEMPT G" = .ok (recId :: rest) →
      getTaxId env cache = (.ok recId, aset cache "0% EXEMPT G" recId, 1) ∧
      getTaxId env (aset cache "0% EXEMPT G" recId) =
        (.ok recId, aset cache "0% EXEMPT G" recId, 0)) := by
  refine ⟨fun h1 h2 => ⟨?_, ?_⟩, fun h1 h2 => ⟨?_, ?_⟩,
    fun h1 h2 => ⟨?_, ?_⟩, fun h1 h2 => ⟨?_, ?_⟩⟩
  · simp [getTagId, h1, h2]
  · simp [getTagId, alookup_aset_self]
  · simp [getCategoryId, h1, h2]
  · simp [getCategoryId, alookup_aset_self]
  · simp [getPublicCategoryId, h1, h2]
  · simp [getPublicCategoryId, alookup_aset_self]
  · simp [getTaxId, h1, h2]
  · simp [getTaxId, alookup_aset_self]

/-- Remote collaborators for the C9 witness. -/
def env9 : RemoteEnv :=
  { tagSearch := fun _ => .ok [7, 8]
    categorySearch := fun _ => .ok [7, 8]
    publicCategorySearch := fun _ => .ok [7, 8]
    taxSearch := fun _ => .ok [7, 8] }

/-- Witness for C9: first call on an empty cache issues one lookup and
caches id 7; the second call issues none. -/
theorem resolveId_cache_spec_witness :
    alookup ([] : List (String × Nat)) "SNCF" = none ∧
    getTagId env9 [] "SNCF" = (.ok 7, aset [] "SNCF" 7, 1) ∧
    getTagId env9 (aset [] "SNCF" 7) "SNCF" =
      (.ok 7, aset [] "SNCF" 7, 0) :=
  ⟨rfl,
   ((resolveId_cache_spec env9 [] "SNCF" 7 [8]).1 rfl rfl).1,
   ((resolveId_cache_spec env9 [] "SNCF" 7 [8]).1 rfl rfl).2⟩

/-- Claim C8: a primary-category resolution failure is non-fatal (a payload
without categ_id and without public_categ_ids is still produced); a
public-category miss returns ok none instead of raising, and then the
payload simply lacks public_categ_ids; by contrast a tag or tax miss raises
a not-found error, and a tag or tax resolution error aborts that product
mapping. -/
theorem reference_miss_spec :
    (∀ (env : MapperEnv) (p : Product) (cat e : String) (tids : List Nat)
      (tid : Nat),
      getCategory p = some cat → env.getCategoryId cat = .error e →
      (getTags p).mapM env.getTagId = .ok tids → env.getTaxId = .ok tid →
      productToOdooDict env p = .ok (basePayload env p tids tid) ∧
      (basePayload env p tids tid).categ_id = none ∧
      (basePayload env p tids tid).public_categ_ids = none) ∧
    (∀ (renv : RemoteEnv) (cache : List (String × Nat)) (cname : String),
      alookup cache cname = none → renv.publicCategorySearch cname = .ok [] →
      getPublicCategoryId renv cache cname = (.ok none, cache, 1)) ∧
    (∀ (env : MapperEnv) (p : Product) (cat : String) (cid : Nat)
      (tids : List Nat) (tid : Nat),
      getCategory p = some cat →
      (getTags p).mapM env.getTagId = .ok tids → env.getTaxId = .ok tid →
      env.getCategoryId cat = .ok cid → env.getPublicCategoryId cat = .ok none →
      productToOdooDict env p =
        .ok { basePayload env p tids tid with categ_id := some cid } ∧
      ({ basePayload env p tids tid with
          categ_id := some cid } : OdooProductData).public_categ_ids = none) ∧
    (∀ (renv : RemoteEnv) (cache : List (String × Nat)) (tname : String),
      alookup cache tname = none → renv.tagSearch tname = .ok [] →
      (getTagId renv cache tname).1 =
        .error ("Tag \x27" ++ tname ++ "\x27 not found in Odoo.")) ∧
    (∀ (renv : RemoteEnv) (cache : List (String × Nat)),
      alookup cache "0% EXEMPT G" = none →
      renv.taxSearch "0% EXEMPT G" = .ok [] →
      (getTaxId renv cache).1 =
        .error "Tax \x270% EXEMPT G\x27 not found in Odoo.") ∧
    (∀ (env : MapperEnv) (p : Product) (e : String),
      (getTags p).mapM env.getTagId = .error e →
      productToOdooDict env p = .error e) ∧
    (∀ (env : MapperEnv) (p : Product) (tids : List Nat) (e : String),
      (getTags p).mapM env.getTagId = .ok tids → env.getTaxId = .error e →
      productToOdooDict env p = .error e) := by
  refine ⟨?_, ?_, ?_, ?_, ?_, ?_, ?_⟩
  · intro env p cat e tids tid hcat herr htags htax
    refine ⟨?_, rfl, rfl⟩
    unfold productToOdooDict
    rw [htags]
    simp only [htax, hcat, herr]
  · intro renv cache cname h1 h2
    simp [getPublicCategoryId, h1, h2]
  · intro env p cat cid tids tid hcat htags htax hcid hpub
    refine ⟨?_, rfl⟩
    unfold productToOdooDict
    rw [htags]
    simp only [htax, hcat, hcid, hpub]
  · intro renv cache tname h1 h2
    simp [getTagId, h1, h2]
  · intro renv cache h1 h2
    simp [getTaxId, h1, h2]
  · intro env p e htags
    unfold productToOdooDict
    rw [htags]
  · intro env p tids e htags htax
    unfold productToOdooDict
    rw [htags]
    simp only [htax]

/-- Mapper collaborators for the C8 witness: the primary category lookup
fails, everything else resolves. -/
def envC8 : MapperEnv :=
  { getTagId := fun _ => .ok 11
    getCategoryId := fun _ => .error "category service down"
    getPublicCategoryId := fun _ => .ok none
    getTaxId := .ok 41
    downloadImage := fun _ => .error "offline"
    formatDate := fun d => d }

/-- Witness for C8: the title classifies to Wagons, the primary category
lookup fails, and a payload without categ_id is still produced. -/
theorem reference_miss_spec_witness :
    getCategory (productOfTitle "Wagon bleu") = some "Wagons" ∧
    productToOdooDict envC8 (productOfTitle "Wagon bleu") =
      .ok (basePayload envC8 (productOfTitle "Wagon bleu") [] 41) ∧
    (basePayload envC8 (productOfTitle "Wagon bleu") [] 41).categ_id = none :=
  ⟨rfl,
   (reference_miss_spec.1 envC8 (productOfTitle "Wagon bleu") "Wagons"
     "category service down" [] 41 rfl rfl rfl rfl).1,
   (reference_miss_spec.1 envC8 (productOfTitle "Wagon bleu") "Wagons"
     "category service down" [] 41 rfl rfl rfl rfl).2.1⟩

/-! ### Synchronization Orchestrator (odoo.ts) -/

/-- OdooExportResult (odoo.ts): the optional created / updated / archived
booleans are represented with false for an absent key. -/
structure OdooExportResult where
  success : Bool
  productId : Option Nat
  created : Bool
  updated : Bool
  archived : Bool
  error : Option String
deriving DecidableEq, Repr

/-- OdooBulkExportResult (odoo.ts): errors is the productId-error pair
list. -/
structure OdooBulkExportResult where
  success : Bool
  created : Nat
  updated : Nat
  archived : Nat
  errors : List (String × String)
deriving DecidableEq, Repr

/-- The remote operations awaited by exportProduct, each possibly throwing;
createProduct covers productToOdooDict plus the create POST, updateProduct
covers productToOdooDict plus the write POST. -/
structure ClientEnv where
  searchProduct : Product → Except String (Option Nat)
  createProduct : Product → Except String Nat
  updateProduct : Nat → Product → Except String Unit
  archiveProduct : List Nat → Except String Unit

/-- One observable remote operation, recorded in issue order. -/
inductive RemoteCall where
  | search (title : String)
  | create (title : String)
  | update (id : Nat)
  | archive (ids : List Nat)
deriving DecidableEq, Repr

/-- The catch-all failure result of exportProduct. -/
def failResult (e : String) : OdooExportResult :=
  { success := false, productId := none, created := false, updated := false,
    archived := false, error := some e }

/-- exportProduct (odoo.ts): search, then create / archive / update / skip;
every thrown error is caught at this boundary and becomes a failure result
carrying the message.  The second component lists the remote calls
issued. -/
def exportProduct (env : ClientEnv) (product : Product)
    (overwriteExisting : Bool) : OdooExportResult × List RemoteCall :=
  match env.searchProduct product with
  | .error e => (failResult e, [.search product.title])
  | .ok none =>
    match env.createProduct product with
    | .error e =>
      (failResult e, [.search product.title, .create product.title])
    | .ok productId =>
      ({ success := true, productId := some productId, created := true,
         updated := false, archived := false, error := none },
       [.search product.title, .create product.title])
  | .ok (some existingProductId) =>
    if product.state = ProductState.SOLD ∨
        product.state = ProductState.REMOVED then
      match env.archiveProduct [existingProductId] with
      | .error e =>
        (failResult e,
         [.search product.title, .archive [existingProductId]])
      | .ok _ =>
        ({ success := true, productId := some existingProductId,
           created := false, updated := false, archived := true,
           error := none },
         [.search product.title, .archive [existingProductId]])
    else if overwriteExisting then
      match env.updateProduct existingProductId product with
      | .error e =>
        (failResult e,
         [.search product.title, .update existingProductId])
      | .ok _ =>
        ({ success := true, productId := some existingProductId,
           created := false, updated := true, archived := false,
           error := none },
         [.search product.title, .update existingProductId])
    else
      ({ success := true, productId := some existingProductId,
         created := false, updated := false, archived := false,
         error := none },
       [.search product.title])

/-- Claim C2: the decision table of exportProduct — search miss creates
(outcome created), search hit with SOLD or REMOVED state archives that id
(outcome archived), search hit with ACTIVE state updates when overwrite is
true (outcome updated), and skips with a bare success when overwrite is
false; in each case exactly the listed remote calls are issued. -/
theorem exportProduct_decision_spec (env : ClientEnv) (p : Product)
    (ow : Bool) :
    (∀ pid, env.searchProduct p = .ok none → env.createProduct p = .ok pid →
      exportProduct env p ow =
        ({ success := true, productId := some pid, created := true,
           updated := false, archived := false, error := none },
         [.search p.title, .create p.title])) ∧
    (∀ rid, env.searchProduct p = .ok (some rid) →
      (p.state = ProductState.SOLD ∨ p.state = ProductState.REMOVED) →
      env.archiveProduct [rid] = .ok () →
      exportProduct env p ow =
        ({ success := true, productId := some rid, created := false,
           updated := false, archived := true, error := none },
         [.search p.title, .archive [rid]])) ∧
    (∀ rid, env.searchProduct p = .ok (some rid) →
      p.state = ProductState.ACTIVE →
      env.updateProduct rid p = .ok () →
      exportProduct env p true =
        ({ success := true, productId := some rid, created := false,
           updated := true, archived := false, error := none },
         [.search p.title, .update rid])) ∧
    (∀ rid, env.searchProduct p = .ok (some rid) →
      p.state = ProductState.ACTIVE →
      exportProduct env p false =
        ({ success := true, productId := some rid, created := false,
           updated := false, archived := false, error := none },
         [.search p.title])) := by
  refine ⟨?_, ?_, ?_, ?_⟩
  · intro pid h1 h2
    simp [exportProduct, h1, h2]
  · intro rid h1 h2 h3
    simp [exportProduct, h1, h2, h3]
  · intro rid h1 h2 h3
    simp [exportProduct, h1, h2, h3]
  · intro rid h1 h2
    simp [exportProduct, h1, h2]

/-- Client collaborators for the C2 witness: the remote search finds
nothing and create assigns id 5. -/
def env2 : ClientEnv :=
  { searchProduct := fun _ => .ok none
    createProduct := fun _ => .ok 5
    updateProduct := fun _ _ => .ok ()
    archiveProduct := fun _ => .ok () }

/-- Witness for C2 in the search-miss row of the decision table. -/
theorem exportProduct_decision_spec_witness :
    env2.searchProduct (productOfTitle "x") = .ok none ∧
    exportProduct env2 (productOfTitle "x") true =
      ({ success := true, productId := some 5, created := true,
         updated := false, archived := false, error := none },
       [.search "x", .create "x"]) :=
  ⟨rfl,
   (exportProduct_decision_spec env2 (productOfTitle "x") true).1 5 rfl rfl⟩

/-- The loop state of exportProducts (odoo.ts) plus the trace of remote
calls issued so far. -/
structure BulkAcc where
  created : Nat
  updated : Nat
  archived : Nat
  errors : List (String × String)
  trace : List RemoteCall
deriving DecidableEq, Repr

/-- One iteration of the for-loop of exportProducts: successful outcomes
bump the matching counter, failures append the productId-message pair. -/
def exportStep (env : ClientEnv) (ow : Bool) (acc : BulkAcc)
    (product : Product) : BulkAcc :=
  match exportProduct env product ow with
  | (result, calls) =>
    if result.success then
      { acc with
        created := acc.created + (if result.created then 1 else 0)
        updated := acc.updated + (if result.updated then 1 else 0)
        archived := acc.archived + (if result.archived then 1 else 0)
        trace := acc.trace ++ calls }
    else
      match result.error with
      | some e =>
        { acc with
          errors := acc.errors ++ [(product.id, e)]
          trace := acc.trace ++ calls }
      | none => { acc with trace := acc.trace ++ calls }

/-- The result object built from the final loop state: batch success holds
exactly when the error list is empty. -/
def bulkFinish (acc : BulkAcc) : OdooBulkExportResult × List RemoteCall :=
  ({ success := acc.errors.length == 0, created := acc.created,
     updated := acc.updated, archived := acc.archived,
     errors := acc.errors }, acc.trace)

/-- exportProducts (odoo.ts): sequential fold over the products in input
order. -/
def exportProducts (env : ClientEnv) (products : List Product) (ow : Bool) :
    OdooBulkExportResult × List RemoteCall :=
  bulkFinish (products.foldl (exportStep env ow) ⟨0, 0, 0, [], []⟩)

/-- The per-product failure pairs of a batch, in input order. -/
def bulkErrors (env : ClientEnv) (products : List Product) (ow : Bool) :
    List (String × String) :=
  products.filterMap (fun p =>
    if (exportProduct env p ow).1.success then none
    else Option.map (fun e => (p.id, e)) (exportProduct env p ow).1.error)

/-- The number of products of a batch that were created. -/
def bulkCreated (env : ClientEnv) (products : List Product) (ow : Bool) :
    Nat :=
  products.countP (fun p =>
    (exportProduct env p ow).1.success && (exportProduct env p ow).1.created)

/-- The number of products of a batch that were updated. -/
def bulkUpdated (env : ClientEnv) (products : List Product) (ow : Bool) :
    Nat :=
  products.countP (fun p =>
    (exportProduct env p ow).1.success && (exportProduct env p ow).1.updated)

/-- The number of products of a batch that were archived. -/
def bulkArchived (env : ClientEnv) (products : List Product) (ow : Bool) :
    Nat :=
  products.countP (fun p =>
    (exportProduct env p ow).1.success && (exportProduct env p ow).1.archived)

/-- The remote calls of a batch: the concatenation of every product's
calls, in input order. -/
def bulkTrace (env : ClientEnv) (products : List Product) (ow : Bool) :
    List RemoteCall :=
  (products.map (fun p => (exportProduct env p ow).2)).flatten

theorem exportStep_eq (env : ClientEnv) (ow : Bool) (acc : BulkAcc)
    (p : Product) :
    exportStep env ow acc p =
      { created := acc.created +
          (if (exportProduct env p ow).1.success &&
              (exportProduct env p ow).1.created then 1 else 0),
        updated := acc.updated +
          (if (exportProduct env p ow).1.success &&
              (exportProduct env p ow).1.updated then 1 else 0),
        archived := acc.archived +
          (if (exportProduct env p ow).1.success &&
              (exportProduct env p ow).1.archived then 1 else 0),
        errors := acc.errors ++
          (if (exportProduct env p ow).1.success then []
           else
             match (exportProduct env p ow).1.error with
             | some e => [(p.id, e)]
             | none => []),
        trace := acc.trace ++ (exportProduct env p ow).2 } := by
  unfold exportStep
  cases hr : exportProduct env p ow with
  | mk r calls =>
    by_cases hs : r.success
    · simp [hs]
    · cases he : r.error <;> simp [hs, he]

theorem foldl_exportStep_shift (env : ClientEnv) (ow : Bool)
    (products : List Product) (acc : BulkAcc) :
    products.foldl (exportStep env ow) acc =
      { created := acc.created + bulkCreated env products ow,
        updated := acc.updated + bulkUpdated env products ow,
        archived := acc.archived + bulkArchived env products ow,
        errors := acc.errors ++ bulkErrors env products ow,
        trace := acc.trace ++ bulkTrace env products ow } := by
  induction products generalizing acc with
  | nil =>
    simp [bulkCreated, bulkUpdated, bulkArchived, bulkErrors, bulkTrace]
  | cons p ps ih =>
    rw [List.foldl_cons, exportStep_eq, ih]
    simp only [bulkCreated, bulkUpdated, bulkArchived, bulkErrors, bulkTrace,
      List.countP_cons, List.filterMap_cons, List.map_cons, List.flatten,
      BulkAcc.mk.injEq]
    refine ⟨by omega, by omega, by omega, ?_, by simp [List.append_assoc]⟩
    by_cases hs : (exportProduct env p ow).1.success
    · simp [hs]
    · cases he : (exportProduct env p ow).1.error <;>
        simp [hs, he, List.append_assoc]

/-- Claim C4: every per-product exception is converted into a failure
outcome carrying its message at the per-product boundary (for each of the
four remote operations), the batch never aborts early — its trace is the
concatenation of every product's calls in input order — the result
accumulates the created / updated / archived counts and the
productId-error pairs, and batch success holds exactly when the error list
is empty. -/
theorem exportProducts_spec (env : ClientEnv) (products : List Product)
    (ow : Bool) :
    (exportProducts env products ow).1.errors = bulkErrors env products ow ∧
    (exportProducts env products ow).1.created =
      bulkCreated env products ow ∧
    (exportProducts env products ow).1.updated =
      bulkUpdated env products ow ∧
    (exportProducts env products ow).1.archived =
      bulkArchived env products ow ∧
    (exportProducts env products ow).2 = bulkTrace env products ow ∧
    ((exportProducts env products ow).1.success = true ↔
      (exportProducts env products ow).1.errors = []) ∧
    (∀ p e, env.searchProduct p = .error e →
      (exportProduct env p ow).1 = failResult e) ∧
    (∀ p e, env.searchProduct p = .ok none →
      env.createProduct p = .error e →
      (exportProduct env p ow).1 = failResult e) ∧
    (∀ p rid e, env.searchProduct p = .ok (some rid) →
      (p.state = ProductState.SOLD ∨ p.state = ProductState.REMOVED) →
      env.archiveProduct [rid] = .error e →
      (exportProduct env p ow).1 = failResult e) ∧
    (∀ p rid e, env.searchProduct p = .ok (some rid) →
      p.state = ProductState.ACTIVE →
      env.updateProduct rid p = .error e →
      (exportProduct env p true).1 = failResult e) := by
  have hshift := foldl_exportStep_shift env ow products ⟨0, 0, 0, [], []⟩
  refine ⟨?_, ?_, ?_, ?_, ?_, ?_, ?_, ?_, ?_, ?_⟩
  · simp [exportProducts, bulkFinish, hshift]
  · simp [exportProducts, bulkFinish, hshift]
  · simp [exportProducts, bulkFinish, hshift]
  · simp [exportProducts, bulkFinish, hshift]
  · simp [exportProducts, bulkFinish, hshift]
  · simp [exportProducts, bulkFinish, hshift, List.length_eq_zero]
  · intro p e h1
    simp [exportProduct, h1]
  · intro p e h1 h2
    simp [exportProduct, h1, h2]
  · intro p rid e h1 h2 h3
    simp [exportProduct, h1, h2, h3]
  · intro p rid e h1 h2 h3
    simp [exportProduct, h1, h2, h3]

/-- A product with the given id and title and fixed defaults elsewhere. -/
def pBatch (i t : String) : Product :=
  { productOfTitle t with id := i }

/-- Client collaborators for the C4 witness: create throws for the product
with id 2 and succeeds for the others. -/
def envB : ClientEnv :=
  { searchProduct := fun _ => .ok none
    createProduct := fun q => if q.id = "2" then .error "boom" else .ok 7
    updateProduct := fun _ _ => .ok ()
    archiveProduct := fun _ => .ok () }

/-- Witness for C4: in a batch of three where the second create throws, the
thrown error becomes that product's failure outcome, the batch reports
exactly one error, both other products are created, and the third product
is still processed (its calls appear in the trace). -/
theorem exportProducts_spec_witness :
    envB.searchProduct (pBatch "2" "b") = .ok none ∧
    envB.createProduct (pBatch "2" "b") = .error "boom" ∧
    (exportProduct envB (pBatch "2" "b") true).1 = failResult "boom" ∧
    (exportProducts envB [pBatch "1" "a", pBatch "2" "b", pBatch "3" "c"]
        true).1.errors = [("2", "boom")] ∧
    (exportProducts envB [pBatch "1" "a", pBatch "2" "b", pBatch "3" "c"]
        true).1.created = 2 ∧
    (exportProducts envB [pBatch "1" "a", pBatch "2" "b", pBatch "3" "c"]
        true).2 =
      [.search "a", .create "a", .search "b", .create "b",
       .search "c", .create "c"] :=
  ⟨rfl, rfl,
   (exportProducts_spec envB
       [pBatch "1" "a", pBatch "2" "b", pBatch "3" "c"]
       true).2.2.2.2.2.2.2.1 (pBatch "2" "b") "boom" rfl rfl,
   rfl, rfl, rfl⟩

/-! ### Saving scraped listings (background.ts) -/

/-- JavaScript a-or-b on optional strings: a missing or empty left operand
falls through to the right operand. -/
def jsOrStr (a b : Option String) : Option String :=
  match a with
  | some s => if s = "" then b else some s
  | none => b

/-- handleSaveProducts (background.ts): read the profiles map, merge the
scraped listings into the existing ones, and write back a profile object
built from username, profileName (new or kept), the merged listings, the
kept details and a fresh lastScraped — and nothing else, so the object
carries no odooExports key.  Returns the new map with the added and updated
counts. -/
def handleSaveProducts (profiles : List (String × ProfileData))
    (username : String) (newProducts : List Listing)
    (profileName : Option String) (now : String) :
    List (String × ProfileData) × Nat × Nat :=
  match alookup profiles username with
  | some existingProfile =>
    (aset profiles username
      { username := username
        profileName := jsOrStr profileName existingProfile.profileName
        listings :=
          (mergeListingsWithStats existingProfile.listings newProducts).merged
        details := existingProfile.details
        lastScraped := now
        odooExports := none },
     (mergeListingsWithStats existingProfile.listings newProducts).added,
     (mergeListingsWithStats existingProfile.listings newProducts).updated)
  | none =>
    (aset profiles username
      { username := username
        profileName := jsOrStr profileName none
        listings := (mergeListingsWithStats [] newProducts).merged
        details := []
        lastScraped := now
        odooExports := none },
     (mergeListingsWithStats [] newProducts).added,
     (mergeListingsWithStats [] newProducts).updated)

/-- Claim C10: for a seller whose stored profile already has a non-empty
odooExports mapping, a successful save writes back a profile built from
only username, profileName, listings, details and lastScraped — the stored
odooExports mapping is not carried over, so the saved profile has no export
statuses. -/
theorem handleSaveProducts_drops_exports
    (profiles : List (String × ProfileData)) (username : String)
    (newProducts : List Listing) (profileName : Option String) (now : String)
    (prof : ProfileData) (exps : List (String × ExportStatus))
    (hprof : alookup profiles username = some prof)
    (hexp : prof.odooExports = some exps) (hne : exps ≠ []) :
    alookup (handleSaveProducts profiles username newProducts profileName
        now).1 username =
      some { username := username
             profileName := jsOrStr profileName prof.profileName
             listings :=
               (mergeListingsWithStats prof.listings newProducts).merged
             details := prof.details
             lastScraped := now
             odooExports := none } := by
  simp [handleSaveProducts, hprof, alookup_aset_self]

def statusW : ExportStatus :=
  { exported := true, odooProductId := some 3, lastExportedAt := some "t",
    exportError := none }

def profW : ProfileData :=
  { username := "u1", profileName := some "Seller", listings :=
      [("a", sampleListing "a" 5)],
    details := [], lastScraped := "t0", odooExports := some [("a", statusW)] }

/-- Witness for C10: a profile with one export status loses it on save. -/
theorem handleSaveProducts_drops_exports_witness :
    alookup [("u1", profW)] "u1" = some profW ∧
    profW.odooExports = some [("a", statusW)] ∧
    ([("a", statusW)] : List (String × ExportStatus)) ≠ [] ∧
    alookup (handleSaveProducts [("u1", profW)] "u1" [sampleListing "a" 7]
        none "t1").1 "u1" =
      some { username := "u1"
             profileName := jsOrStr none profW.profileName
             listings :=
               (mergeListingsWithStats profW.listings
                 [sampleListing "a" 7]).merged
             details := profW.details
             lastScraped := "t1"
             odooExports := none } :=
  ⟨rfl, rfl, by simp,
   handleSaveProducts_drops_exports [("u1", profW)] "u1"
     [sampleListing "a" 7] none "t1" profW [("a", statusW)] rfl rfl
     (by simp)⟩

end MTS
